import Mathlib

/-!
Shallow embedding of the CSV parsing engine implemented in `src/src/csv_reader.cpp`
(together with the declarations in `src/src/csv_parser.hpp` and `src/src/csv_row.hpp`).

Conventions of the embedding:
* The C++ code works on 8-bit bytes (`char`, `std::string`); the embedding models a
  byte as a `Nat` (its unsigned value) and a byte string as `List Nat`.  ASCII
  renderings of all concrete byte strings are given in comments.  Frequently used
  byte values: 9 tab, 10 LF, 13 CR, 32 space, 34 quote, 44 comma, 45 minus,
  46 dot, 59 semicolon, 94 caret, 124 pipe.
* `CSVReader::feed` iterates with `std::string` iterators and dereferences `in + 1`
  (and, guarded, `in - 1`).  When `in` is the last character of the chunk, `*(in + 1)`
  reads the NUL terminator of the `std::string` buffer, which compares unequal to the
  delimiter, the quote character, CR and LF for every format considered here.  The
  embedding therefore models the one-byte lookahead as `Option Nat`, with `none`
  (end of chunk) unequal to every input byte.
* The repository snapshot does not contain the header that matches `csv_reader.cpp`
  (both `csv_parser.h` and `csv_parser.hpp` belong to other revisions), so the initial
  values of the reader's data members are modelled from the spec (section 3,
  ParserState): counters start at 0, `quote_escape` is false, the record buffer holds
  one empty in-flight field, and the output queue is empty.  The guesser tallies
  `row_tally`/`row_when` start as the singleton map `{0 ↦ 0}` as declared in
  `csv_parser.hpp`.
* The virtual `bad_row_handler` (a no-op in `CSVReader`, a row-length tally in
  `CSVGuesser::Guesser`) is modelled by the `is_guesser` flag of the state.
* Files are modelled as their list of lines, each line carrying its terminator,
  every line shorter than the 10000-byte `fgets` buffer.  `CSVReader::read_csv`
  concatenates the first `nrows` lines into one buffer (all files considered here
  are far below the 1 MiB flush threshold) and feeds it once; `end_feed` runs
  exactly when the file was exhausted before the `nrows` budget, which for files
  ending in a newline means `lines.length < nrows`.
-/

set_option maxRecDepth 100000
set_option maxHeartbeats 4000000

namespace CsvSpec

/-- A byte string, one `Nat` per byte. -/
abbrev Bytes := List Nat

/-- Field type codes returned by `helpers::data_type` in `csv_reader.cpp`
(0 null, 1 string, 2 int, 3 float). -/
inductive DataType where
  | _null
  | _string
  | _int
  | _float
deriving DecidableEq, Repr

/-- C `isdigit` on a byte: the ASCII digits 48-57. -/
def isdigit (c : Nat) : Bool :=
  decide (48 ≤ c ∧ c ≤ 57)

/-- Does the (optional) previous byte satisfy `isdigit`?  Used for the
`isdigit(in[i - 1])` test in the whitespace case of `helpers::data_type`. -/
def prevIsDigit : Option Nat → Bool
  | some c => isdigit c
  | none => false

/-- The scanning loop of `helpers::data_type` (`csv_reader.cpp` lines 40-101).
Arguments after the input and the previous byte are the flags
`ws_allowed`, `neg_allowed`, `dot_allowed`, `digit_allowed`, `has_digit`,
`prob_float` in this order.  Byte cases: 32 is space, 45 minus, 46 dot. -/
def dataTypeAux : Bytes → Option Nat → Bool → Bool → Bool → Bool → Bool → Bool → DataType
  | [], _, _, _, _, _, hasd, pf =>
    if hasd then (if pf then ._float else ._int) else ._null
  | c :: rest, prev, ws, neg, dot, dig, hasd, pf =>
    if c = 32 then
      if ws then dataTypeAux rest (some c) ws neg dot dig hasd pf
      else if prevIsDigit prev then dataTypeAux rest (some c) true neg dot false hasd pf
      else ._string
    else if c = 45 then
      if neg then dataTypeAux rest (some c) ws false dot dig hasd pf
      else ._string
    else if c = 46 then
      if dot then dataTypeAux rest (some c) ws neg false dig hasd true
      else ._string
    else if isdigit c then
      if dig then dataTypeAux rest (some c) (if ws then false else ws) neg dot dig true pf
      else ._string
    else ._string

/-- `helpers::data_type` (`csv_reader.cpp` lines 12-102). -/
def data_type (s : Bytes) : DataType :=
  if s = [] then ._null
  else dataTypeAux s none true true true true false false

/-- `csv::CSVFormat` from `csv_parser.hpp`. -/
structure CSVFormat where
  delim : Nat
  quote_char : Nat
  header : Int
  col_names : List Bytes
  strict : Bool
deriving DecidableEq, Repr

/-- `DEFAULT_CSV` from `csv_parser.hpp`: comma delimiter, double-quote,
header at row 0, no explicit column names, non-strict. -/
def DEFAULT_CSV : CSVFormat := ⟨44, 34, 0, [], false⟩

/-- The mutable data members of `csv::CSVReader` that the parsing callbacks touch,
plus the `row_tally`/`row_when` maps of `CSVGuesser::Guesser` (modelled as
insertion-ordered association lists) and the `is_guesser` flag standing for the
virtual dispatch of `bad_row_handler`. -/
structure ReaderState where
  delimiter : Nat
  quote_char : Nat
  header_row : Int
  strict : Bool
  quote_escape : Bool
  row_num : Int
  correct_rows : Nat
  col_names : List Bytes
  subset : List Nat
  subset_col_names : List Bytes
  subset_flag : Bool
  records : List (List Bytes)
  record_buffer : List Bytes
  is_guesser : Bool
  row_tally : List (Nat × Nat)
  row_when : List (Nat × Int)
deriving DecidableEq, Repr

/-- Append a byte to the last field of the record buffer
(`this->record_buffer.back() += *it`).  The buffer is never empty when the
parser runs; the `[]` case is unreachable. -/
def appendLast : List Bytes → Nat → List Bytes
  | [], _ => []
  | [f], c => [f ++ [c]]
  | f :: g :: rest, c => f :: appendLast (g :: rest) c

/-- Append one byte to the field currently being assembled. -/
def appendChar (st : ReaderState) (c : Nat) : ReaderState :=
  { st with record_buffer := appendLast st.record_buffer c }

/-- Start a new field (`this->record_buffer.push_back(std::string())`). -/
def pushNewField (st : ReaderState) : ReaderState :=
  { st with record_buffer := st.record_buffer ++ [[]] }

/-- Set the `quote_escape` flag. -/
def setQuoteEscape (st : ReaderState) (b : Bool) : ReaderState :=
  { st with quote_escape := b }

/-- `CSVReader::set_col_names` (`csv_reader.cpp` lines 310-332).  The loops
`push_back` onto the existing vectors, which the embedding renders with `++`. -/
def setColNames (st : ReaderState) (cols : List Bytes) : ReaderState :=
  if st.subset.length > 0 then
    { st with col_names := cols, subset_flag := true,
              subset_col_names :=
                st.subset_col_names ++ st.subset.map (fun i => cols.getD i []) }
  else
    { st with col_names := cols, subset := st.subset ++ List.range cols.length,
              subset_col_names := cols }

/-- Increment the tally of an existing row length. -/
def bumpTally : List (Nat × Nat) → Nat → List (Nat × Nat)
  | [], _ => []
  | (k, v) :: rest, n => if k = n then (k, v + 1) :: rest else (k, v) :: bumpTally rest n

/-- `CSVGuesser::Guesser::bad_row_handler` (`csv_reader.cpp` lines 113-119):
tally the length of the rejected record and remember `row_num + 1` the first
time a length is seen. -/
def tallyBadRow (st : ReaderState) (n : Nat) : ReaderState :=
  if (st.row_tally.lookup n).isSome then
    { st with row_tally := bumpTally st.row_tally n }
  else
    { st with row_tally := st.row_tally ++ [(n, 1)],
              row_when := st.row_when ++ [(n, st.row_num + 1)] }

/-- Dispatch of the virtual `bad_row_handler`: a no-op for `CSVReader`
(`csv_reader.cpp` line 111), the tally above for the guesser's subclass. -/
def badRowHandler (st : ReaderState) (record : List Bytes) : ReaderState :=
  if st.is_guesser then tallyBadRow st record.length else st

/-- The accepting branch of `CSVReader::write_record`: advance `correct_rows`
and append the record (subsetted through `subset` when `subset_flag` is set)
to the output queue. -/
def acceptRecord (st : ReaderState) : ReaderState :=
  { st with correct_rows := st.correct_rows + 1,
            records := st.records ++
              [if st.subset_flag = false then st.record_buffer
               else st.subset.map (fun i => st.record_buffer.getD i [])] }

/-- The rejecting branch of `CSVReader::write_record`: undo the upcoming
`row_num` increment and report the non-empty record to `bad_row_handler`. -/
def rejectRecord (st : ReaderState) : ReaderState :=
  if st.record_buffer ≠ [] then
    badRowHandler { st with row_num := st.row_num - 1 } st.record_buffer
  else
    { st with row_num := st.row_num - 1 }

/-- The epilogue of `CSVReader::write_record`: reset the record buffer to one
empty field and advance `row_num`. -/
def finishRecord (st : ReaderState) : ReaderState :=
  { st with record_buffer := [[]], row_num := st.row_num + 1 }

/-- `CSVReader::write_record` (`csv_reader.cpp` lines 422-460). -/
def write_record (st : ReaderState) : ReaderState :=
  finishRecord
    (if st.row_num > st.header_row then
       if st.record_buffer.length = st.col_names.length then
         acceptRecord { st with quote_escape := false }
       else
         rejectRecord { st with quote_escape := false }
     else if st.row_num = st.header_row then
       setColNames { st with quote_escape := false } st.record_buffer
     else { st with quote_escape := false })

/-- The per-chunk scanning loop of `CSVReader::feed` together with the callbacks
`process_possible_delim`, `process_quote` and `process_newline`
(`csv_reader.cpp` lines 338-420).  `prev` is the previous byte of the
current chunk (`none` at the chunk start, matching the `in != begin` guard).
The one-byte lookahead `*(in + 1)` is `rest.head?`; past the end of the chunk
it reads the NUL terminator, which the `none` value renders (unequal to the
delimiter, quote, CR and LF in every format considered).  The `skip` flag
models the `++in` that consumes the second byte of a CR-LF pair or of a
doubled quote: the next byte is dropped and becomes `prev`.
Bytes 13 and 10 are CR and LF. -/
def feedAux : ReaderState → Option Nat → Bool → Bytes → ReaderState
  | st, _, _, [] => st
  | st, prev, skip, c :: rest =>
    if skip then feedAux st (some c) false rest
    else if c = st.delimiter then
      -- process_possible_delim
      feedAux (if st.quote_escape = false then pushNewField st else appendChar st c)
        (some c) false rest
    else if c = st.quote_char then
      -- process_quote
      if st.quote_escape then
        if rest.head? = some st.delimiter ∨ rest.head? = some 13 ∨ rest.head? = some 10 then
          feedAux (setQuoteEscape st false) (some c) false rest
        else if rest.head? = some st.quote_char then
          -- two consecutive quotes: keep one, skip the second
          feedAux (appendChar st c) (some c) true rest
        else
          feedAux (appendChar st c) (some c) false rest
      else
        feedAux (if prev = some st.delimiter then setQuoteEscape st true else st)
          (some c) false rest
    else if c = 13 ∨ c = 10 then
      -- process_newline
      if st.quote_escape = false then
        if c = 13 ∧ rest.head? = some 10 then
          feedAux (write_record st) (some c) true rest
        else
          feedAux (write_record st) (some c) false rest
      else
        feedAux (appendChar st c) (some c) false rest
    else
      feedAux (appendChar st c) (some c) false rest

/-- `CSVReader::feed` on one chunk. -/
def feed (st : ReaderState) (chunk : Bytes) : ReaderState :=
  feedAux st none false chunk

/-- `CSVReader::end_feed`. -/
def end_feed (st : ReaderState) : ReaderState :=
  write_record st

/-- Feed a sequence of chunks. -/
def feedMany (st : ReaderState) (chunks : List Bytes) : ReaderState :=
  chunks.foldl feed st

/-- The in-memory constructor `CSVReader::CSVReader(CSVFormat, std::vector<int>)`
(`csv_reader.cpp` lines 262-269): non-empty explicit column names force
`header_row = -1` and install the names immediately. -/
def ReaderState.init (format : CSVFormat) (subset : List Nat)
    (isGuesser : Bool := false) : ReaderState :=
  let st : ReaderState :=
    { delimiter := format.delim
      quote_char := format.quote_char
      header_row := format.header
      strict := format.strict
      quote_escape := false
      row_num := 0
      correct_rows := 0
      col_names := []
      subset := subset
      subset_col_names := []
      subset_flag := false
      records := []
      record_buffer := [[]]
      is_guesser := isGuesser
      row_tally := [(0, 0)]
      row_when := [(0, 0)] }
  if format.col_names ≠ [] then
    setColNames { st with header_row := -1 } format.col_names
  else st

/-- `CSVReader::get_col_names` returns `subset_col_names`
(`csv_reader.cpp` lines 334-336). -/
def ReaderState.getColNames (st : ReaderState) : List Bytes :=
  st.subset_col_names

/-- `CSVReader::read_csv(filename, nrows, close)` for an in-model file given as
its list of lines (each ending in its newline): the first `nrows` lines are
accumulated into one buffer and fed in a single `feed` call; `end_feed` runs
exactly when the file ran out before the `nrows` budget. -/
def readCSVLines (st : ReaderState) (lines : List Bytes) (nrows : Nat) : ReaderState :=
  let fed := feed st (lines.take nrows).flatten
  if lines.length < nrows then end_feed fed else fed

/-- The file constructor `CSVReader::CSVReader(filename, subset, format)` with a
concrete (non-guessed) format: it reads the first 100 lines
(`csv_reader.cpp` lines 271-293). -/
def readerFromFile (lines : List Bytes) (subset : List Nat)
    (format : CSVFormat) : ReaderState :=
  readCSVLines (ReaderState.init format subset) lines 100

/-- The candidate delimiters of `CSVGuesser` (`csv_parser.hpp` line 362):
comma, pipe, tab, semicolon, caret. -/
def delims : List Nat := [44, 124, 9, 59, 94]

/-- The loop of `CSVGuesser::first_guess` (`csv_reader.cpp` lines 130-168):
accumulator `(max_rows, max_cols, current_delim)`; a candidate replaces the
incumbent when its `row_num` is at least `max_rows` and its column count
strictly exceeds `max_cols`, and then stores its capped `correct_rows`. -/
def firstGuessLoop (lines : List Bytes) :
    List Nat → Nat → Nat → Nat → Nat × Nat × Nat
  | [], maxRows, maxCols, cur => (maxRows, maxCols, cur)
  | d :: ds, maxRows, maxCols, cur =>
    let g := readerFromFile lines [] { DEFAULT_CSV with delim := d }
    if g.row_num ≥ (maxRows : Int) ∧ g.getColNames.length > maxCols then
      firstGuessLoop lines ds (min g.correct_rows 100) g.getColNames.length d
    else
      firstGuessLoop lines ds maxRows maxCols cur

/-- `CSVGuesser::first_guess`: the chosen delimiter and whether the guess was
good enough (`max_rows > 10 && max_cols > 2`). -/
def firstGuess (lines : List Bytes) : Nat × Bool :=
  let r := firstGuessLoop lines delims 0 0 44
  (r.2.2, decide (r.1 > 10 ∧ r.2.1 > 2))

/-- `std::max_element` with the comparator `x.second < y.second` over the tally:
the first entry, in iteration order, whose count is maximal.  The tally is never
empty (it is initialized to the singleton `{0 ↦ 0}`); the `[]` case is
unreachable. -/
def maxBySecond : List (Nat × Nat) → Nat × Nat
  | [] => (0, 0)
  | p :: ps => ps.foldl (fun m q => if m.2 < q.2 then q else m) p

/-- The loop of `CSVGuesser::second_guess` (`csv_reader.cpp` lines 170-207):
each candidate delimiter is parsed by a tallying `Guesser` over the first 100
lines; a candidate updates `(max_rlen, header)` when its modal row length has a
tally exceeding its number of accepted records and strictly exceeds the current
`max_rlen`. -/
def secondGuessLoop (lines : List Bytes) :
    List Nat → Nat → Int → Int
  | [], _, header => header
  | d :: ds, maxRlen, header =>
    let g := readCSVLines
      (ReaderState.init { DEFAULT_CSV with delim := d } [] true) lines 100
    let mx := maxBySecond g.row_tally
    if mx.2 > g.records.length ∧ mx.1 > maxRlen then
      secondGuessLoop lines ds mx.1 ((g.row_when.lookup mx.1).getD 0)
    else
      secondGuessLoop lines ds maxRlen header

/-- `CSVGuesser::guess_delim` (`csv_reader.cpp` lines 121-128): the delimiter
found by the first guess, and the header row (0 unless the second guess runs). -/
def guessDelim (lines : List Bytes) : Nat × Int :=
  let r := firstGuess lines
  if r.2 then (r.1, 0) else (r.1, secondGuessLoop lines delims 0 0)

/-- `csv::guess_format` (`csv_reader.cpp` lines 105-109). -/
def guessFormat (lines : List Bytes) : CSVFormat :=
  let r := guessDelim lines
  ⟨r.1, 34, r.2, [], false⟩

/-- Number of record terminators in a byte sequence, counting a CR-LF pair as a
single terminator.  Used to state the spec's `row_num` bookkeeping claim. -/
def recordTerminatorCount : Bytes → Nat
  | [] => 0
  | 13 :: 10 :: rest => 1 + recordTerminatorCount rest
  | 13 :: rest => 1 + recordTerminatorCount rest
  | 10 :: rest => 1 + recordTerminatorCount rest
  | _ :: rest => recordTerminatorCount rest

/-- The score the claim attributes to a stage-1 candidate: the number of
correctly parsed rows capped at 100, paired with the column count, for a parse
of the first 100 lines with the header assumed at row 0. -/
def firstGuessScore (lines : List Bytes) (d : Nat) : Nat × Nat :=
  let g := readerFromFile lines [] { DEFAULT_CSV with delim := d }
  (min g.correct_rows 100, g.getColNames.length)

/-- Modelled from the claim's words (not from the source): the candidate
delimiter with the greatest lexicographic `firstGuessScore`, earlier candidates
winning ties. -/
def firstGuessClaimedWinner (lines : List Bytes) : Nat :=
  (delims.foldl
    (fun (best : Nat × Nat × Nat) d =>
      let sc := firstGuessScore lines d
      if sc.1 > best.2.1 ∨ (sc.1 = best.2.1 ∧ sc.2 > best.2.2) then (d, sc) else best)
    (44, firstGuessScore lines 44)).1

/-- One step of the selection that `CSVGuesser::first_guess` actually performs,
phrased as a fold step for the refinement theorem: the candidate replaces the
incumbent exactly when its total parsed line count `row_num` is at least the
incumbent's stored capped correct-row count and its column count strictly
exceeds the incumbent's column count. -/
def firstGuessStep (lines : List Bytes) :
    Nat × Nat × Nat → Nat → Nat × Nat × Nat
  | (maxRows, maxCols, cur), d =>
    let g := readerFromFile lines [] { DEFAULT_CSV with delim := d }
    if g.row_num ≥ (maxRows : Int) ∧ g.getColNames.length > maxCols then
      (min g.correct_rows 100, g.getColNames.length, d)
    else (maxRows, maxCols, cur)

/-- The field type lattice of `csv_parser.hpp` (enum `DataType`, values 0-5). -/
inductive CSVDataType where
  | CSV_NULL
  | CSV_STRING
  | CSV_INT
  | CSV_LONG_INT
  | CSV_LONG_LONG_INT
  | CSV_DOUBLE
deriving DecidableEq, Repr

/-- The numeric value of a `csv_parser.hpp` `DataType` enumerator. -/
def CSVDataType.code : CSVDataType → Nat
  | .CSV_NULL => 0
  | .CSV_STRING => 1
  | .CSV_INT => 2
  | .CSV_LONG_INT => 3
  | .CSV_LONG_LONG_INT => 4
  | .CSV_DOUBLE => 5

/-- The errors a `CSVField` retrieval can surface.  `notANumber` is the
`std::runtime_error("Not a number.")` of `csv_row.hpp`, `overflowError` the
`std::runtime_error("Overflow error.")`; `nullValue` is the distinct NullValue
error the spec describes, included so the claim can be stated (the code never
produces it). -/
inductive RetrievalError where
  | notANumber
  | overflowError
  | nullValue
deriving DecidableEq, Repr

/-- `csv::CSVField` of `csv_row.hpp`: the raw text slice `sv`, the cached wide
numeric `value`, and the classification `dtype` that `type()` returns.
`type()` delegates to the classifier of the missing `data_type.h`; the
classification is therefore carried as data here, which is all
`CSVField::get` inspects. -/
structure CSVFieldModel where
  sv : Bytes
  value : Int
  dtype : CSVDataType
deriving DecidableEq, Repr

instance : DecidableEq (Except RetrievalError Int)
  | .ok a, .ok b =>
    if h : a = b then .isTrue (congrArg Except.ok h)
    else .isFalse (fun hh => h (Except.ok.inj hh))
  | .error a, .error b =>
    if h : a = b then .isTrue (congrArg Except.error h)
    else .isFalse (fun hh => h (Except.error.inj hh))
  | .ok _, .error _ => .isFalse (fun hh => Except.noConfusion hh)
  | .error _, .ok _ => .isFalse (fun hh => Except.noConfusion hh)

/-- The numeric branch of `CSVField::get<T>` (`csv_row.hpp` lines 57-69) for a
request of numeric type class `t` (`t = type_num<T>()`, one of `CSV_INT`,
`CSV_LONG_INT`, `CSV_LONG_LONG_INT`, `CSV_DOUBLE`): if the field is not
numeric, throw "Not a number."; if the requested width class is below the
classified one, throw "Overflow error."; otherwise cast out the value. -/
def fieldGetNumeric (f : CSVFieldModel) (t : CSVDataType) : Except RetrievalError Int :=
  if CSVDataType.CSV_INT.code ≤ f.dtype.code then
    if t.code < f.dtype.code then .error .overflowError
    else .ok f.value
  else .error .notANumber

/-- The `std::string` specialization of `CSVField::get`
(`csv_row.hpp` lines 125-128): always returns the raw text, never fails. -/
def fieldGetString (f : CSVFieldModel) : Bytes :=
  f.sv

/-- Format with explicit column names `a`, `b` and `strict = true`. -/
def strictFmtAB : CSVFormat := ⟨44, 34, 0, [[97], [98]], true⟩

/-- Format with explicit column names `a`, `b` and `strict = false`. -/
def laxFmtAB : CSVFormat := ⟨44, 34, 0, [[97], [98]], false⟩

/-- The quoting example of the spec (section 8, scenario 2), as bytes:
`a,b\n"hello, world",42\n"she said ""hi""",7\n`. -/
def specExample2 : Bytes :=
  [97, 44, 98, 10,
   34, 104, 101, 108, 108, 111, 44, 32, 119, 111, 114, 108, 100, 34, 44, 52, 50, 10,
   34, 115, 104, 101, 32, 115, 97, 105, 100, 32, 34, 34, 104, 105, 34, 34, 34, 44, 55, 10]

/-- Concrete file for the stage-1 guesser, as lines of bytes:
`a,b,c|d<TAB>e`, twice `1,2,3`, eleven times `x|y`, once `x|y^z`,
each line ending in LF. -/
def F6 : List Bytes :=
  [[97, 44, 98, 44, 99, 124, 100, 9, 101, 10],
   [49, 44, 50, 44, 51, 10], [49, 44, 50, 44, 51, 10]] ++
  List.replicate 11 [120, 124, 121, 10] ++
  [[120, 124, 121, 94, 122, 10]]

/-- Concrete file for the guess-format scenario, as lines of bytes: three
comment lines `# c1`, `# c2`, `# c3` containing no candidate delimiter bytes,
the header `id|name|qty`, then 50 pipe-delimited data rows `1|a|2`, each line
ending in LF. -/
def F7 : List Bytes :=
  [[35, 32, 99, 49, 10], [35, 32, 99, 50, 10], [35, 32, 99, 51, 10],
   [105, 100, 124, 110, 97, 109, 101, 124, 113, 116, 121, 10]] ++
  List.replicate 50 [49, 124, 97, 124, 50, 10]

/-! Projection lemmas for the branches of `write_record`. -/

@[simp] theorem finishRecord_records (st : ReaderState) :
    (finishRecord st).records = st.records := rfl

@[simp] theorem finishRecord_correct_rows (st : ReaderState) :
    (finishRecord st).correct_rows = st.correct_rows := rfl

@[simp] theorem finishRecord_row_num (st : ReaderState) :
    (finishRecord st).row_num = st.row_num + 1 := rfl

@[simp] theorem finishRecord_record_buffer (st : ReaderState) :
    (finishRecord st).record_buffer = [[]] := rfl

@[simp] theorem finishRecord_subset (st : ReaderState) :
    (finishRecord st).subset = st.subset := rfl

@[simp] theorem finishRecord_subset_flag (st : ReaderState) :
    (finishRecord st).subset_flag = st.subset_flag := rfl

@[simp] theorem finishRecord_subset_col_names (st : ReaderState) :
    (finishRecord st).subset_col_names = st.subset_col_names := rfl

@[simp] theorem finishRecord_col_names (st : ReaderState) :
    (finishRecord st).col_names = st.col_names := rfl

@[simp] theorem finishRecord_header_row (st : ReaderState) :
    (finishRecord st).header_row = st.header_row := rfl

@[simp] theorem acceptRecord_row_num (st : ReaderState) :
    (acceptRecord st).row_num = st.row_num := rfl

@[simp] theorem acceptRecord_header_row (st : ReaderState) :
    (acceptRecord st).header_row = st.header_row := rfl

@[simp] theorem acceptRecord_correct_rows (st : ReaderState) :
    (acceptRecord st).correct_rows = st.correct_rows + 1 := rfl

@[simp] theorem acceptRecord_records (st : ReaderState) :
    (acceptRecord st).records = st.records ++
      [if st.subset_flag = false then st.record_buffer
       else st.subset.map (fun i => st.record_buffer.getD i [])] := rfl

@[simp] theorem acceptRecord_subset (st : ReaderState) :
    (acceptRecord st).subset = st.subset := rfl

@[simp] theorem acceptRecord_subset_flag (st : ReaderState) :
    (acceptRecord st).subset_flag = st.subset_flag := rfl

@[simp] theorem acceptRecord_subset_col_names (st : ReaderState) :
    (acceptRecord st).subset_col_names = st.subset_col_names := rfl

@[simp] theorem acceptRecord_col_names (st : ReaderState) :
    (acceptRecord st).col_names = st.col_names := rfl

@[simp] theorem acceptRecord_record_buffer (st : ReaderState) :
    (acceptRecord st).record_buffer = st.record_buffer := rfl

@[simp] theorem rejectRecord_records (st : ReaderState) :
    (rejectRecord st).records = st.records := by
  unfold rejectRecord badRowHandler tallyBadRow
  split_ifs <;> rfl

@[simp] theorem rejectRecord_correct_rows (st : ReaderState) :
    (rejectRecord st).correct_rows = st.correct_rows := by
  unfold rejectRecord badRowHandler tallyBadRow
  split_ifs <;> rfl

@[simp] theorem rejectRecord_row_num (st : ReaderState) :
    (rejectRecord st).row_num = st.row_num - 1 := by
  unfold rejectRecord badRowHandler tallyBadRow
  split_ifs <;> rfl

@[simp] theorem rejectRecord_header_row (st : ReaderState) :
    (rejectRecord st).header_row = st.header_row := by
  unfold rejectRecord badRowHandler tallyBadRow
  split_ifs <;> rfl

@[simp] theorem rejectRecord_subset (st : ReaderState) :
    (rejectRecord st).subset = st.subset := by
  unfold rejectRecord badRowHandler tallyBadRow
  split_ifs <;> rfl

@[simp] theorem rejectRecord_subset_flag (st : ReaderState) :
    (rejectRecord st).subset_flag = st.subset_flag := by
  unfold rejectRecord badRowHandler tallyBadRow
  split_ifs <;> rfl

@[simp] theorem rejectRecord_subset_col_names (st : ReaderState) :
    (rejectRecord st).subset_col_names = st.subset_col_names := by
  unfold rejectRecord badRowHandler tallyBadRow
  split_ifs <;> rfl

@[simp] theorem rejectRecord_col_names (st : ReaderState) :
    (rejectRecord st).col_names = st.col_names := by
  unfold rejectRecord badRowHandler tallyBadRow
  split_ifs <;> rfl

@[simp] theorem rejectRecord_record_buffer (st : ReaderState) :
    (rejectRecord st).record_buffer = st.record_buffer := by
  unfold rejectRecord badRowHandler tallyBadRow
  split_ifs <;> rfl

@[simp] theorem setColNames_records (st : ReaderState) (cols : List Bytes) :
    (setColNames st cols).records = st.records := by
  unfold setColNames
  split_ifs <;> rfl

@[simp] theorem setColNames_correct_rows (st : ReaderState) (cols : List Bytes) :
    (setColNames st cols).correct_rows = st.correct_rows := by
  unfold setColNames
  split_ifs <;> rfl

@[simp] theorem setColNames_row_num (st : ReaderState) (cols : List Bytes) :
    (setColNames st cols).row_num = st.row_num := by
  unfold setColNames
  split_ifs <;> rfl

@[simp] theorem setColNames_header_row (st : ReaderState) (cols : List Bytes) :
    (setColNames st cols).header_row = st.header_row := by
  unfold setColNames
  split_ifs <;> rfl

@[simp] theorem setColNames_record_buffer (st : ReaderState) (cols : List Bytes) :
    (setColNames st cols).record_buffer = st.record_buffer := by
  unfold setColNames
  split_ifs <;> rfl

/-- Appending a byte to the last field keeps the number of fields. -/
theorem appendLast_length (l : List Bytes) (c : Nat) :
    (appendLast l c).length = l.length := by
  induction l with
  | nil => rfl
  | cons f t ih =>
    cases t with
    | nil => rfl
    | cons g rest => simpa [appendLast] using ih

/-- Appending a byte to the last field keeps the buffer non-empty. -/
theorem appendLast_ne_nil (l : List Bytes) (c : Nat) (h : l ≠ []) :
    appendLast l c ≠ [] := by
  intro hc
  apply h
  have := appendLast_length l c
  rw [hc] at this
  exact List.length_eq_zero.mp this.symm

/-- Any state predicate preserved by the four primitive parser operations is
preserved by the chunk-scanning loop `feedAux`. -/
theorem feedAux_preserve (P : ReaderState → Prop)
    (hA : ∀ st c, P st → P (appendChar st c))
    (hN : ∀ st, P st → P (pushNewField st))
    (hE : ∀ st b, P st → P (setQuoteEscape st b))
    (hW : ∀ st, P st → P (write_record st)) :
    ∀ (s : Bytes) (st : ReaderState) (prev : Option Nat) (skip : Bool),
      P st → P (feedAux st prev skip s) := by
  intro s
  induction s with
  | nil =>
    intro st prev skip hP
    simpa only [feedAux] using hP
  | cons c rest ih =>
    intro st prev skip hP
    rw [feedAux]
    split_ifs <;>
      first
      | exact ih _ _ _ (hN _ hP)
      | exact ih _ _ _ (hA _ _ hP)
      | exact ih _ _ _ (hE _ _ hP)
      | exact ih _ _ _ (hW _ hP)
      | exact ih _ _ _ hP

/-- Any state predicate preserved by the four primitive parser operations holds
after feeding any chunk sequence and finishing with `end_feed`. -/
theorem run_preserve (P : ReaderState → Prop)
    (hA : ∀ st c, P st → P (appendChar st c))
    (hN : ∀ st, P st → P (pushNewField st))
    (hE : ∀ st b, P st → P (setQuoteEscape st b))
    (hW : ∀ st, P st → P (write_record st))
    (st : ReaderState) (chunks : List Bytes) (h : P st) :
    P (end_feed (feedMany st chunks)) := by
  apply hW
  unfold feedMany
  induction chunks generalizing st with
  | nil => exact h
  | cons chunk rest ih =>
    simp only [List.foldl_cons]
    exact ih _ (feedAux_preserve P hA hN hE hW _ _ _ _ h)

/-- `write_record` keeps `correct_rows` equal to the output queue length. -/
theorem write_record_counts (st : ReaderState)
    (h : st.correct_rows = st.records.length) :
    (write_record st).correct_rows = (write_record st).records.length := by
  unfold write_record
  split_ifs <;> simp [h]

/-- The `correct_rows = |records|` invariant for a full push-mode run. -/
theorem counts_invariant (format : CSVFormat) (subset : List Nat)
    (chunks : List Bytes) :
    (end_feed (feedMany (ReaderState.init format subset) chunks)).correct_rows =
      (end_feed (feedMany (ReaderState.init format subset) chunks)).records.length := by
  apply run_preserve (fun st => st.correct_rows = st.records.length)
  · intro st c h
    exact h
  · intro st h
    exact h
  · intro st b h
    exact h
  · intro st h
    exact write_record_counts st h
  · unfold ReaderState.init setColNames
    dsimp only
    split_ifs <;> rfl

/-- The `row_num` bookkeeping actually performed by `write_record`: it advances
by one except when a record is finalized past the header row with the wrong
field count, in which case it is left unchanged. -/
theorem write_record_row_num (st : ReaderState) :
    (write_record st).row_num =
      st.row_num +
        (if st.header_row < st.row_num ∧
            st.record_buffer.length ≠ st.col_names.length then 0 else 1) := by
  unfold write_record
  split_ifs <;> simp <;> omega

/-- The invariant relating a fixed subset `s` to a reader state: the subset is
unchanged, the in-flight buffer is never empty, before the header commit nothing
has been emitted, after it the subsetted column names are the `s`-projection of
the header, and every emitted row is the `s`-projection of a full-length
record. -/
def SubsetInv (s : List Nat) (st : ReaderState) : Prop :=
  st.subset = s ∧
  st.record_buffer ≠ [] ∧
  (st.subset_flag = false → st.col_names = [] ∧ st.subset_col_names = [] ∧
      st.records = []) ∧
  (st.subset_flag = true → st.header_row < st.row_num ∧
      st.subset_col_names = s.map (fun i => st.col_names.getD i [])) ∧
  (∀ r ∈ st.records, ∃ full : List Bytes,
      full.length = st.col_names.length ∧ r = s.map (fun i => full.getD i []))

/-- `write_record` preserves `SubsetInv` when the subset is non-empty. -/
theorem subsetInv_write_record (s : List Nat) (hs : s ≠ []) (st : ReaderState)
    (h : SubsetInv s st) : SubsetInv s (write_record st) := by
  obtain ⟨h1, h2, h3, h4, h5⟩ := h
  unfold write_record
  split_ifs with hgt hlen heq
  · -- accepted record
    have hflag : st.subset_flag = true := by
      cases hf : st.subset_flag
      · exfalso
        obtain ⟨hcn, -, -⟩ := h3 hf
        rw [hcn] at hlen
        exact h2 (List.length_eq_zero.mp hlen)
      · rfl
    refine ⟨h1, by simp, ?_, ?_, ?_⟩
    · intro hf
      simp only [finishRecord_subset_flag, acceptRecord_subset_flag] at hf
      rw [hflag] at hf
      cases hf
    · intro _
      refine ⟨?_, ?_⟩
      · simp only [finishRecord_row_num, acceptRecord_row_num,
          finishRecord_header_row, acceptRecord_header_row]
        have := (h4 hflag).1
        omega
      · simpa using (h4 hflag).2
    · intro r hr
      simp only [finishRecord_records, acceptRecord_records, hflag] at hr
      simp only [List.mem_append, List.mem_singleton] at hr
      rcases hr with hr | hr
      · simpa using h5 r hr
      · refine ⟨st.record_buffer, by simpa using hlen, ?_⟩
        rw [hr, h1]
        simp
  · -- rejected record
    refine ⟨by simp [h1], by simp, ?_, ?_, ?_⟩
    · intro hf
      simp only [finishRecord_subset_flag, rejectRecord_subset_flag] at hf
      simpa using h3 hf
    · intro hf
      simp only [finishRecord_subset_flag, rejectRecord_subset_flag] at hf
      obtain ⟨hn, hm⟩ := h4 hf
      constructor
      · simp only [finishRecord_row_num, rejectRecord_row_num,
          finishRecord_header_row, rejectRecord_header_row]
        omega
      · simpa using hm
    · intro r hr
      simp only [finishRecord_records, rejectRecord_records] at hr
      simpa using h5 r hr
  · -- header commit
    have hflag : st.subset_flag = false := by
      cases hf : st.subset_flag
      · rfl
      · exfalso
        have := (h4 hf).1
        omega
    obtain ⟨hcn, hscn, hrec⟩ := h3 hflag
    unfold setColNames
    have hpos : 0 < s.length := List.length_pos.mpr hs
    rw [if_pos]
    · refine ⟨by simp [h1], by simp, ?_, ?_, ?_⟩
      · intro hf
        simp at hf
      · intro _
        constructor
        · simp only [finishRecord_row_num, finishRecord_header_row]
          omega
        · simp [hscn, h1]
      · intro r hr
        simp only [finishRecord_records] at hr
        rw [hrec] at hr
        cases hr
    · simpa [h1] using hpos
  · -- row before the header: ignored
    refine ⟨by simp [h1], by simp, ?_, ?_, ?_⟩
    · intro hf
      simpa using h3 (by simpa using hf)
    · intro hf
      obtain ⟨hn, hm⟩ := h4 (by simpa using hf)
      exact ⟨by simp only [finishRecord_row_num, finishRecord_header_row]; omega,
        by simpa using hm⟩
    · intro r hr
      simpa using h5 r (by simpa using hr)

/-- If the flags carry `neg_allowed = false`, any further minus sign (byte 45)
makes `helpers::data_type` classify the input as a string. -/
theorem dataTypeAux_after_dash :
    ∀ (s : Bytes) (prev : Option Nat) (ws dot dig hasd pf : Bool),
      45 ∈ s → dataTypeAux s prev ws false dot dig hasd pf = DataType._string := by
  intro s
  induction s with
  | nil =>
    intro prev ws dot dig hasd pf h
    simp at h
  | cons c rest ih =>
    intro prev ws dot dig hasd pf h
    rw [dataTypeAux]
    by_cases h1 : c = 32
    · have hm : (45 : Nat) ∈ rest := by
        rcases List.mem_cons.mp h with h' | h'
        · rw [h1] at h'
          exact absurd h' (by decide)
        · exact h'
      rw [if_pos h1]
      by_cases h2 : ws = true
      · rw [if_pos h2]
        exact ih _ _ _ _ _ _ hm
      · rw [if_neg h2]
        by_cases h3 : prevIsDigit prev = true
        · rw [if_pos h3]
          exact ih _ _ _ _ _ _ hm
        · rw [if_neg h3]
    · rw [if_neg h1]
      by_cases h2 : c = 45
      · rw [if_pos h2]
        rfl
      · have hm : (45 : Nat) ∈ rest := by
          rcases List.mem_cons.mp h with h' | h'
          · exact absurd h'.symm h2
          · exact h'
        rw [if_neg h2]
        by_cases h3 : c = 46
        · rw [if_pos h3]
          by_cases h4 : dot = true
          · rw [if_pos h4]
            exact ih _ _ _ _ _ _ hm
          · rw [if_neg h4]
        · rw [if_neg h3]
          by_cases h5 : isdigit c = true
          · rw [if_pos h5]
            by_cases h6 : dig = true
            · rw [if_pos h6]
              exact ih _ _ _ _ _ _ hm
            · rw [if_neg h6]
          · rw [if_neg h5]

/-- An input holding two or more minus signs is classified as a string by the
scanning loop, whatever the flag state. -/
theorem dataTypeAux_two_dashes :
    ∀ (s : Bytes) (prev : Option Nat) (ws neg dot dig hasd pf : Bool),
      2 ≤ s.count 45 → dataTypeAux s prev ws neg dot dig hasd pf = DataType._string := by
  intro s
  induction s with
  | nil =>
    intro prev ws neg dot dig hasd pf h
    simp at h
  | cons c rest ih =>
    intro prev ws neg dot dig hasd pf h
    rw [dataTypeAux]
    by_cases h2 : c = 45
    · rw [if_neg (by rw [h2]; decide), if_pos h2]
      have hm : (45 : Nat) ∈ rest := by
        rw [h2] at h
        simp only [List.count_cons_self] at h
        have : 0 < rest.count 45 := by omega
        exact List.count_pos_iff.mp this
      by_cases h3 : neg = true
      · rw [if_pos h3]
        exact dataTypeAux_after_dash rest _ _ _ _ _ _ hm
      · rw [if_neg h3]
    · have hcnt : 2 ≤ rest.count 45 := by
        rw [List.count_cons_of_ne (fun hh => h2 hh.symm)] at h
        exact h
      by_cases h1 : c = 32
      · rw [if_pos h1]
        by_cases h4 : ws = true
        · rw [if_pos h4]
          exact ih _ _ _ _ _ _ _ hcnt
        · rw [if_neg h4]
          by_cases h5 : prevIsDigit prev = true
          · rw [if_pos h5]
            exact ih _ _ _ _ _ _ _ hcnt
          · rw [if_neg h5]
      · rw [if_neg h1, if_neg h2]
        by_cases h3 : c = 46
        · rw [if_pos h3]
          by_cases h4 : dot = true
          · rw [if_pos h4]
            exact ih _ _ _ _ _ _ _ hcnt
          · rw [if_neg h4]
        · rw [if_neg h3]
          by_cases h5 : isdigit c = true
          · rw [if_pos h5]
            by_cases h6 : dig = true
            · rw [if_pos h6]
              exact ih _ _ _ _ _ _ _ hcnt
            · rw [if_neg h6]
          · rw [if_neg h5]

/-- The loop of `CSVGuesser::first_guess` is the left fold of its selection
step over the candidate delimiters. -/
theorem firstGuessLoop_eq_foldl (lines : List Bytes) :
    ∀ (ds : List Nat) (a b c : Nat),
      firstGuessLoop lines ds a b c = ds.foldl (firstGuessStep lines) (a, b, c) := by
  intro ds
  induction ds with
  | nil =>
    intro a b c
    rfl
  | cons d ds ih =>
    intro a b c
    simp only [firstGuessLoop, List.foldl_cons, firstGuessStep]
    split_ifs <;> exact ih _ _ _

/-- C1 (code_bug evidence): feeding the bytes of `a,b\nc,"d"\n` as one chunk
yields the single row `[c, d]`, but feeding the same bytes split into the
chunks `a,b\nc,"d"` and `\n` yields the row `[c, d"\n]` instead, because the
closing-quote lookahead reads past the end of the first chunk and the
quote-escape state then swallows the newline.  This contradicts the documented
contract of `CSVReader::feed` that fragments can be joined by feeding them
sequentially. -/
theorem C1_chunk_boundary_divergence :
    (end_feed (feedMany (ReaderState.init DEFAULT_CSV [])
        [[97, 44, 98, 10, 99, 44, 34, 100, 34, 10]])).records
      = [[[99], [100]]] ∧
    (end_feed (feedMany (ReaderState.init DEFAULT_CSV [])
        [[97, 44, 98, 10, 99, 44, 34, 100, 34], [10]])).records
      = [[[99], [100, 34, 10]]] ∧
    (end_feed (feedMany (ReaderState.init DEFAULT_CSV [])
        [[97, 44, 98, 10, 99, 44, 34, 100, 34], [10]])).records
      ≠ (end_feed (feedMany (ReaderState.init DEFAULT_CSV [])
        [[97, 44, 98, 10, 99, 44, 34, 100, 34, 10]])).records := by
  decide

/-- C2 (code_bug evidence): on the spec's own example input `specExample2`,
the parser does not treat a quote at start of record as opening a quoted field
(`process_quote` only sets `quote_escape` when the previous byte of the chunk
is the delimiter).  The first data row splits into three fields and is
dropped, and the doubled quotes of the second data row are simply discarded:
the output is the single row `[she said hi, 7]`, not two rows with first field
`hello, world`. -/
theorem C2_record_initial_quote_ignored :
    (end_feed (feed (ReaderState.init DEFAULT_CSV []) specExample2)).records
      = [[[115, 104, 101, 32, 115, 97, 105, 100, 32, 104, 105], [55]]] ∧
    (end_feed (feed (ReaderState.init DEFAULT_CSV []) specExample2)).records.length ≠ 2 ∧
    (∀ r ∈ (end_feed (feed (ReaderState.init DEFAULT_CSV []) specExample2)).records,
      r.getD 0 [] ≠ [104, 101, 108, 108, 111, 44, 32, 119, 111, 114, 108, 100]) := by
  decide

/-- C3 (code_bug evidence): with `strict = true` and column names `a`, `b`,
finalizing the three-field record `1,2,3` raises nothing: `write_record` has no
strict branch, the record is silently dropped, `correct_rows` stays 0, and the
resulting queue and counters coincide with the non-strict run. -/
theorem C3_strict_mode_never_raises :
    (end_feed (feed (ReaderState.init strictFmtAB []) [49, 44, 50, 44, 51, 10])).records
      = [] ∧
    (end_feed (feed (ReaderState.init strictFmtAB []) [49, 44, 50, 44, 51, 10])).correct_rows
      = 0 ∧
    (end_feed (feed (ReaderState.init strictFmtAB []) [49, 44, 50, 44, 51, 10])).records
      = (end_feed (feed (ReaderState.init laxFmtAB []) [49, 44, 50, 44, 51, 10])).records ∧
    (end_feed (feed (ReaderState.init strictFmtAB []) [49, 44, 50, 44, 51, 10])).row_num
      = (end_feed (feed (ReaderState.init laxFmtAB []) [49, 44, 50, 44, 51, 10])).row_num := by
  decide

/-- C4 (counterexample): with column names `a`, `b`, the one-field record `1`
(exactly one field short) is not padded with an empty trailing field and
accepted, as the claim states; it is dropped: the output queue stays empty and
`correct_rows` stays 0. -/
theorem C4_one_short_record_dropped :
    (end_feed (feed (ReaderState.init laxFmtAB []) [49, 10])).records = [] ∧
    (end_feed (feed (ReaderState.init laxFmtAB []) [49, 10])).records ≠ [[[49], []]] ∧
    (end_feed (feed (ReaderState.init laxFmtAB []) [49, 10])).correct_rows = 0 := by
  decide

/-- C4 (amended): at record finalization there is no trailing-field padding —
whenever a finalized record past the header row has exactly one field fewer
than the number of column names, `write_record` drops it like any other
wrong-length record: the output queue and `correct_rows` are unchanged. -/
theorem C4_no_trailing_field_padding (st : ReaderState)
    (h1 : st.header_row < st.row_num)
    (h2 : st.record_buffer.length + 1 = st.col_names.length) :
    (write_record st).records = st.records ∧
    (write_record st).correct_rows = st.correct_rows := by
  have hne : ¬(st.record_buffer.length = st.col_names.length) := by omega
  unfold write_record
  rw [if_pos (by exact h1), if_neg hne]
  simp

/-- Witness for `C4_no_trailing_field_padding` at a concrete state: after
feeding `1` and its terminator to a reader with column names `a`, `b`, the
reset buffer holds one field against two column names, and another
`write_record` leaves queue and counter unchanged. -/
theorem C4_no_trailing_field_padding_witness :
    (feed (ReaderState.init laxFmtAB []) [49, 10]).header_row
        < (feed (ReaderState.init laxFmtAB []) [49, 10]).row_num ∧
    (feed (ReaderState.init laxFmtAB []) [49, 10]).record_buffer.length + 1
        = (feed (ReaderState.init laxFmtAB []) [49, 10]).col_names.length ∧
    ((write_record (feed (ReaderState.init laxFmtAB []) [49, 10])).records
        = (feed (ReaderState.init laxFmtAB []) [49, 10]).records ∧
     (write_record (feed (ReaderState.init laxFmtAB []) [49, 10])).correct_rows
        = (feed (ReaderState.init laxFmtAB []) [49, 10]).correct_rows) :=
  ⟨by decide, by decide,
    C4_no_trailing_field_padding _ (by decide) (by decide)⟩

/-- C5 (counterexample): for the input `a,b\n1\n1,2\n` (three record
terminators, header present), the claim predicts `row_num = 3 + 1 - 1 = 3`,
but the malformed middle record does not advance `row_num`, which ends at 2. -/
theorem C5_row_num_counterexample :
    (end_feed (feed (ReaderState.init DEFAULT_CSV [])
        [97, 44, 98, 10, 49, 10, 49, 44, 50, 10])).row_num = 2 ∧
    recordTerminatorCount [97, 44, 98, 10, 49, 10, 49, 44, 50, 10] = 3 ∧
    (end_feed (feed (ReaderState.init DEFAULT_CSV [])
        [97, 44, 98, 10, 49, 10, 49, 44, 50, 10])).row_num
      ≠ (recordTerminatorCount [97, 44, 98, 10, 49, 10, 49, 44, 50, 10] : Int) + 1 - 1 := by
  decide

/-- C5 (amended): after any feed/end_feed run, `correct_rows` equals the number
of rows appended to the output queue; but `row_num` advances only on records
finalized at or before the header row and on accepted records — a record
finalized past the header row with the wrong field count (malformed, dropped)
leaves `row_num` unchanged, so `row_num` generally undercounts the record
terminators. -/
theorem C5_row_accounting :
    (∀ (format : CSVFormat) (subset : List Nat) (chunks : List Bytes),
        (end_feed (feedMany (ReaderState.init format subset) chunks)).correct_rows =
          (end_feed (feedMany (ReaderState.init format subset) chunks)).records.length) ∧
    (∀ st : ReaderState,
        (write_record st).row_num =
          st.row_num +
            (if st.header_row < st.row_num ∧
                st.record_buffer.length ≠ st.col_names.length then 0 else 1)) :=
  ⟨counts_invariant, write_record_row_num⟩

/-- C8 (counterexample): the classifier accepts a single minus sign in
non-leading position — `5-` (bytes 53, 45) and `1-2` (bytes 49, 45, 50) are
classified as Integer, not String. -/
theorem C8_nonleading_dash_counterexample :
    data_type [53, 45] = DataType._int ∧
    data_type [53, 45] ≠ DataType._string ∧
    data_type [49, 45, 50] = DataType._int := by
  decide

/-- C8 (amended): `helpers::data_type` accepts at most one minus sign anywhere
in the token, not only a leading one: any input containing two or more minus
signs (byte 45) is classified String, while a single embedded minus is
accepted (`5-` and `1-2` classify as Integer). -/
theorem C8_at_most_one_dash :
    (∀ s : Bytes, 2 ≤ s.count 45 → data_type s = DataType._string) ∧
    data_type [53, 45] = DataType._int ∧
    data_type [49, 45, 50] = DataType._int := by
  refine ⟨?_, by decide, by decide⟩
  intro s h
  have hne : s ≠ [] := by
    intro he
    rw [he] at h
    simp at h
  unfold data_type
  rw [if_neg hne]
  exact dataTypeAux_two_dashes s none true true true true false false h

/-- Witness for `C8_at_most_one_dash` at the concrete input `--`. -/
theorem C8_at_most_one_dash_witness :
    2 ≤ ([45, 45] : Bytes).count 45 ∧
    data_type [45, 45] = DataType._string :=
  ⟨by decide, C8_at_most_one_dash.1 [45, 45] (by decide)⟩

/-- C9 (counterexample): a numeric retrieval on a Null-classified field throws
the same "Not a number." error as on a String-classified field; no distinct
NullValue error is raised. -/
theorem C9_null_error_counterexample :
    fieldGetNumeric ⟨[], 0, .CSV_NULL⟩ .CSV_INT = .error .notANumber ∧
    fieldGetNumeric ⟨[], 0, .CSV_NULL⟩ .CSV_INT ≠ .error .nullValue ∧
    fieldGetNumeric ⟨[], 0, .CSV_NULL⟩ .CSV_INT
      = fieldGetNumeric ⟨[120], 0, .CSV_STRING⟩ .CSV_INT := by
  decide

/-- C9 (amended): for every field and numeric request kind, a numeric
retrieval on a field classified below the numeric kinds (Null or String) fails
with the "Not a number." error — identically for Null and String, with no
distinct NullValue error; a request narrower than the classified kind fails
with the Overflow error; a request at least as wide succeeds; and text
retrieval never fails. -/
theorem C9_retrieval_errors (f : CSVFieldModel) (t : CSVDataType)
    (ht : CSVDataType.CSV_INT.code ≤ t.code) :
    (f.dtype.code < CSVDataType.CSV_INT.code →
        fieldGetNumeric f t = .error .notANumber) ∧
    (CSVDataType.CSV_INT.code ≤ f.dtype.code → t.code < f.dtype.code →
        fieldGetNumeric f t = .error .overflowError) ∧
    (CSVDataType.CSV_INT.code ≤ f.dtype.code → f.dtype.code ≤ t.code →
        fieldGetNumeric f t = .ok f.value) ∧
    fieldGetString f = f.sv := by
  clear ht
  unfold fieldGetNumeric fieldGetString
  refine ⟨?_, ?_, ?_, rfl⟩
  · intro hlo
    rw [if_neg (by omega)]
  · intro hge hlt
    rw [if_pos hge, if_pos hlt]
  · intro hge hle
    rw [if_pos hge, if_neg (by omega)]

/-- Witness for `C9_retrieval_errors`: an `int` request on a field classified
`CSV_LONG_LONG_INT` fails with the Overflow error. -/
theorem C9_retrieval_errors_witness :
    CSVDataType.CSV_INT.code ≤ CSVDataType.CSV_INT.code ∧
    CSVDataType.CSV_INT.code ≤ (CSVDataType.CSV_LONG_LONG_INT).code ∧
    fieldGetNumeric ⟨[57], 0, .CSV_LONG_LONG_INT⟩ .CSV_INT
      = .error .overflowError :=
  ⟨by decide, by decide,
    (C9_retrieval_errors ⟨[57], 0, .CSV_LONG_LONG_INT⟩ .CSV_INT
        (by decide)).2.1 (by decide) (by decide)⟩

/-- C6 (counterexample): on the file `F6`, stage 1 of the guesser keeps the
first candidate `,` (byte 44), although the greatest lexicographic
(capped correct rows, column count) score — the rule the claim states —
belongs to `;` (byte 59): the comma scores (2, 3), the semicolon (15, 1). -/
theorem C6_not_lexicographic :
    (firstGuess F6).1 = 44 ∧
    firstGuessClaimedWinner F6 = 59 ∧
    firstGuessScore F6 44 = (2, 3) ∧
    firstGuessScore F6 59 = (15, 1) ∧
    (firstGuess F6).1 ≠ firstGuessClaimedWinner F6 := by
  decide

/-- C6 (amended): stage 1 scores a candidate by its capped correct-row count
and column count as the claim states, but does not take the lexicographic
maximum: scanning `,`, `|`, tab, `;`, `^` in order, a candidate replaces the
incumbent exactly when its total parsed line count (`row_num`) is at least the
incumbent's stored capped correct-row count and its column count strictly
exceeds the incumbent's; guessing terminates (keeping header row 0) exactly
when the final incumbent's capped correct rows exceed 10 and its columns
exceed 2. -/
theorem C6_sequential_selection (lines : List Bytes) :
    firstGuess lines =
      ((delims.foldl (firstGuessStep lines) (0, 0, 44)).2.2,
        decide ((delims.foldl (firstGuessStep lines) (0, 0, 44)).1 > 10 ∧
          (delims.foldl (firstGuessStep lines) (0, 0, 44)).2.1 > 2)) ∧
    guessDelim lines =
      (if (firstGuess lines).2 then ((firstGuess lines).1, 0)
       else ((firstGuess lines).1, secondGuessLoop lines delims 0 0)) := by
  constructor
  · unfold firstGuess
    rw [firstGuessLoop_eq_foldl]
  · rfl

/-- C7 (counterexample): for the concrete file `F7` — three comment lines
without delimiter bytes, the header `id|name|qty`, 50 pipe-delimited data
rows — `guess_format` does not return the delimiter `|` (byte 124): stage 1
leaves the first candidate `,` (byte 44) in place because no candidate ever
exceeds its column count, and a reader built from the guessed format has the
single column name `id|name|qty` instead of `id`, `name`, `qty`. -/
theorem C7_comma_not_pipe :
    (guessFormat F7).delim = 44 ∧
    (guessFormat F7).delim ≠ 124 ∧
    (readerFromFile F7 [] (guessFormat F7)).getColNames
      = [[105, 100, 124, 110, 97, 109, 101, 124, 113, 116, 121]] ∧
    (readerFromFile F7 [] (guessFormat F7)).getColNames
      ≠ [[105, 100], [110, 97, 109, 101], [113, 116, 121]] := by
  decide

/-- C7 (amended): on the file `F7` the guesser returns delimiter `,` (stage 1
finds no candidate with more columns than the comma) and header row 3 (stage
2 locates the modal rejected row length under `|`); a reader constructed with
the guessed format accepts 51 rows — the 50 data rows plus one empty row from
the file's trailing newline — under the single column name `id|name|qty`. -/
theorem C7_guesser_on_comment_file :
    guessFormat F7 = ⟨44, 34, 3, [], false⟩ ∧
    (readerFromFile F7 [] (guessFormat F7)).correct_rows = 51 ∧
    (readerFromFile F7 [] (guessFormat F7)).records.length = 51 ∧
    (readerFromFile F7 [] (guessFormat F7)).getColNames
      = [[105, 100, 124, 110, 97, 109, 101, 124, 113, 116, 121]] := by
  decide

/-- C10: when a reader is constructed with a non-empty subset of column
indices (and no explicit column names), then after any feed/end_feed run:
once the header has been committed (`subset_flag` set), `get_col_names`
returns exactly the subsetted column names, in subset order, as the
projection of the header through the subset; and every row in the output
queue is the subset projection, in subset order, of a full-length record. -/
theorem C10_subset_projection (format : CSVFormat) (s : List Nat) (chunks : List Bytes)
    (hcn : format.col_names = []) (hs : s ≠ []) :
    ((end_feed (feedMany (ReaderState.init format s) chunks)).subset_flag = true →
        (end_feed (feedMany (ReaderState.init format s) chunks)).getColNames =
          s.map (fun i =>
            (end_feed (feedMany (ReaderState.init format s) chunks)).col_names.getD i [])) ∧
    (∀ r ∈ (end_feed (feedMany (ReaderState.init format s) chunks)).records,
        ∃ full : List Bytes,
          full.length = (end_feed (feedMany (ReaderState.init format s) chunks)).col_names.length ∧
          r = s.map (fun i => full.getD i [])) := by
  have key : SubsetInv s (end_feed (feedMany (ReaderState.init format s) chunks)) := by
    apply run_preserve (SubsetInv s)
    · intro st c h
      obtain ⟨a, b, c2, d, e⟩ := h
      exact ⟨a, appendLast_ne_nil _ _ b, c2, d, e⟩
    · intro st h
      obtain ⟨a, b, c2, d, e⟩ := h
      refine ⟨a, ?_, c2, d, e⟩
      simp [pushNewField]
    · intro st b h
      exact h
    · exact subsetInv_write_record s hs
    · unfold ReaderState.init
      dsimp only
      rw [if_neg (by simp [hcn])]
      exact ⟨rfl, by simp, fun _ => ⟨rfl, rfl, rfl⟩,
        fun hf => by simp at hf, fun r hr => absurd hr (by simp)⟩
  exact ⟨fun hf => (key.2.2.2.1 hf).2, key.2.2.2.2⟩

/-- Witness for `C10_subset_projection`: a reader over `a,b,c` then `1,2,3`
with the subset `[1]`. -/
theorem C10_subset_projection_witness :
    DEFAULT_CSV.col_names = [] ∧ (([1] : List Nat) ≠ []) ∧
    (((end_feed (feedMany (ReaderState.init DEFAULT_CSV [1])
          [[97, 44, 98, 44, 99, 10, 49, 44, 50, 44, 51, 10]])).subset_flag = true →
        (end_feed (feedMany (ReaderState.init DEFAULT_CSV [1])
          [[97, 44, 98, 44, 99, 10, 49, 44, 50, 44, 51, 10]])).getColNames =
          [1].map (fun i =>
            (end_feed (feedMany (ReaderState.init DEFAULT_CSV [1])
              [[97, 44, 98, 44, 99, 10, 49, 44, 50, 44, 51, 10]])).col_names.getD i [])) ∧
      (∀ r ∈ (end_feed (feedMany (ReaderState.init DEFAULT_CSV [1])
          [[97, 44, 98, 44, 99, 10, 49, 44, 50, 44, 51, 10]])).records,
        ∃ full : List Bytes,
          full.length = (end_feed (feedMany (ReaderState.init DEFAULT_CSV [1])
            [[97, 44, 98, 44, 99, 10, 49, 44, 50, 44, 51, 10]])).col_names.length ∧
          r = [1].map (fun i => full.getD i []))) :=
  ⟨rfl, by decide,
    C10_subset_projection DEFAULT_CSV [1]
      [[97, 44, 98, 44, 99, 10, 49, 44, 50, 44, 51, 10]] rfl (by decide)⟩

end CsvSpec
